import Mathlib

/-!
Shallow embedding of the rspamd lua map / rsa modules
(src/src/lua/lua_map.c and src/src/lua/lua_rsa.c).

Conventions of the embedding:
- byte buffers are `List Nat` (each element one byte);
- C pointers that may be NULL are `Option`;
- external collaborators (OpenSSL digest and PKCS1 encoding, the radix
  trie library, glib hash tables, the POSIX file system) are passed as
  explicit function or oracle parameters, as the specification declares
  them out of scope;
- Lua return values that can be a string, a boolean or nil are the
  inductive `LuaValue`.
-/

/- ===================== RSA primitives (lua_rsa.c) ===================== -/

/-- An RSA key pair in the mathematical model: modulus `n`, public
exponent `e`, private exponent `d`, with the two inversion laws that a
matching pair satisfies on residues below the modulus. -/
structure RSAKey where
  n : Nat
  e : Nat
  d : Nat
  one_lt_n : 1 < n
  sign_then_verify : ∀ m, m < n → (m ^ d) ^ e % n = m
  verify_then_sign : ∀ m, m < n → (m ^ e) ^ d % n = m

/-- Model of `lua_rsa_sign_memory` (lua_rsa.c:510-545).  The C code
computes `data_sig = g_compute_checksum_for_string (G_CHECKSUM_SHA256,
data, -1)` and hands it to `RSA_sign (NID_sha1, data_sig, ...)`, which
wraps the digest in a PKCS1 DigestInfo encoding and exponentiates with
the private key.  The digest plus encoding pipeline is the external
collaborator `digestEnc`; the modular exponentiation is explicit.
`RSA_sign` fails (the lua function returns nil) when the encoded block
does not fit the modulus. -/
def lua_rsa_sign_memory (k : RSAKey) (digestEnc : List Nat → Nat)
    (data : List Nat) : Option Nat :=
  if digestEnc data < k.n then some (digestEnc data ^ k.d % k.n) else none

/-- Model of `lua_rsa_verify_memory` (lua_rsa.c:401-433): recompute the
same `digestEnc` over `data` and compare it with the public-key
exponentiation of the signature; true exactly on match. -/
def lua_rsa_verify_memory (k : RSAKey) (digestEnc : List Nat → Nat)
    (sig : Nat) (data : List Nat) : Bool :=
  decide (sig ^ k.e % k.n = digestEnc data)

/-- Outcome of opening and mapping the data file in
`lua_rsa_verify_file` (lua_rsa.c:445-498): `open` can fail, `fstat` or
`mmap` can fail, or the full contents are obtained. -/
inductive FileAccess
  | openFail
  | mmapFail
  | ok (data : List Nat)
deriving DecidableEq

/-- Model of `lua_rsa_verify_file` (lua_rsa.c:445-498): a failed open
or a failed fstat/mmap pushes nil (`none`); otherwise the in-memory
verification runs on the whole file contents and its boolean is
returned. -/
def lua_rsa_verify_file (k : RSAKey) (digestEnc : List Nat → Nat)
    (sig : Nat) (fa : FileAccess) : Option Bool :=
  match fa with
  | FileAccess.openFail => none
  | FileAccess.mmapFail => none
  | FileAccess.ok data => some (lua_rsa_verify_memory k digestEnc sig data)

/-- The POSIX `EINTR` errno value, tested by the write loop of
`lua_rsa_signature_save`. -/
def EINTR : Nat := 4

/-- Oracle outcome of one `write(2)` attempt in the save loop
(lua_rsa.c:342-351): either the call fails with an errno having written
nothing, or it writes the whole buffer.  The loop retries while the
call returns -1. -/
inductive WriteRes
  | fail (e : Nat)
  | ok
deriving DecidableEq

/-- The `while (write (fd, sig->str, sig->len) == -1)` loop of
`lua_rsa_signature_save` (lua_rsa.c:342-351), driven by an oracle list
holding the outcome of each successive attempt: `errno == EINTR`
continues the loop, any other errno aborts with `res = FALSE` (file
left empty), a successful call writes the signature and leaves
`res = TRUE`.  The oracle list must cover every attempt made; an
exhausted oracle is mapped to the aborted outcome. -/
def writeLoop (sig : List Nat) : List WriteRes → Bool × List Nat
  | [] => (false, [])
  | WriteRes.ok :: _ => (true, sig)
  | WriteRes.fail e :: rest =>
    if e = EINTR then writeLoop sig rest else (false, [])

/-- Pointwise update of the modelled file system. -/
def fsUpdate (fs : String → Option (List Nat)) (p : String)
    (v : List Nat) : String → Option (List Nat) :=
  fun q => if q = p then some v else fs q

/-- Model of `lua_rsa_signature_save` (lua_rsa.c:312-361).  The file
system is a map from path to contents (`none` = no such file).  Flags:
`O_WRONLY | O_CREAT` plus `O_TRUNC` when `forced`, else `O_EXCL` — so a
non-forced save on an existing path fails at `open` with nothing
written, while otherwise the file is created or truncated and the write
loop runs. -/
def lua_rsa_signature_save (sig : List Nat) (filename : String)
    (forced : Bool) (writes : List WriteRes)
    (fs : String → Option (List Nat)) :
    Bool × (String → Option (List Nat)) :=
  if !forced && (fs filename).isSome then
    (false, fs)
  else
    let r := writeLoop sig writes
    (r.1, fsUpdate fs filename r.2)

/- ================== Callback map ingestion (lua_map.c) ================== -/

/-- Model of `struct lua_map_callback_data` (lua_map.c:101-106): the
registry reference of the lua callback (`-1` = none registered), the
identity of the owning map handle, and the growable `GString` buffer
(`none` = NULL, not yet allocated). -/
structure MapCbData where
  ref : Int
  lua_map : Nat
  data : Option (List Nat)
deriving DecidableEq

/-- The `prev_data` / `cur_data` slots of `struct map_cb_data` that the
fetch engine hands to `lua_map_read` and `lua_map_fin`. -/
structure MapCbState where
  prev_data : Option MapCbData
  cur_data : Option MapCbData
deriving DecidableEq

/-- The buffer step of `lua_map_read` (lua_map.c:291-296): a NULL
buffer is created holding the chunk (`g_string_new_len`), otherwise the
chunk is appended (`g_string_append_len`). -/
def appendChunk (c : MapCbData) (chunk : List Nat) : MapCbData :=
  match c.data with
  | none => { c with data := some chunk }
  | some d => { c with data := some (d ++ chunk) }

/-- Model of `lua_map_read` (lua_map.c:273-299): if no current
accumulator exists one is allocated, copying the callback reference and
handle identity out of `prev_data` (which the C dereferences without a
NULL check — `none` models that undefined case); then the chunk is
appended to the accumulator buffer. -/
def lua_map_read (chunk : List Nat) (st : MapCbState) : Option MapCbState :=
  match st.cur_data with
  | none =>
    match st.prev_data with
    | none => none
    | some old =>
      let cbdata : MapCbData := { ref := old.ref, lua_map := old.lua_map, data := none }
      some { st with cur_data := some (appendChunk cbdata chunk) }
  | some cbdata => some { st with cur_data := some (appendChunk cbdata chunk) }

/-- Observable outcome of `lua_map_fin` (lua_map.c:301-341): the
"no data read for map" diagnostic, the "map has no callback set"
diagnostic, an invocation of the registered lua handler with the full
buffer and the owning handle, or a silent skip (buffer NULL or empty). -/
inductive FinResult
  | noData
  | noCallback
  | invoked (lua_map : Nat) (buf : List Nat)
  | skipped
deriving DecidableEq

/-- Model of `lua_map_fin` (lua_map.c:301-341): free `prev_data` if
present; if `cur_data` is absent report "no data read for map" and
stop; if no callback is registered report that; otherwise, when the
buffer is non-NULL and non-empty, call the handler with the buffer and
the map handle. -/
def lua_map_fin (st : MapCbState) : FinResult × MapCbState :=
  let st2 : MapCbState := { st with prev_data := none }
  match st.cur_data with
  | none => (FinResult.noData, st2)
  | some cbdata =>
    if cbdata.ref = -1 then (FinResult.noCallback, st2)
    else
      match cbdata.data with
      | some d =>
        if d.length ≠ 0 then (FinResult.invoked cbdata.lua_map d, st2)
        else (FinResult.skipped, st2)
      | none => (FinResult.skipped, st2)

/-- Fold `lua_map_read` over a sequence of delivered chunks. -/
def readAll (chunks : List (List Nat)) (st : MapCbState) : Option MapCbState :=
  match chunks with
  | [] => some st
  | c :: rest =>
    match lua_map_read c st with
    | none => none
    | some st2 => readAll rest st2

/-- One full ingestion cycle as driven by the fetch engine: starting
with the previous cycle data in `prev_data` and no current accumulator,
deliver all chunks through `lua_map_read`, then run `lua_map_fin` and
observe its outcome. -/
def runCycle (p : MapCbData) (chunks : List (List Nat)) : Option FinResult :=
  match readAll chunks { prev_data := some p, cur_data := none } with
  | none => none
  | some st => some (lua_map_fin st).1

/- ================== Map lookups and handle metadata ================== -/

/-- A Lua return value of `map:get_key`: a string, a boolean, or nil. -/
inductive LuaValue
  | str (s : String)
  | boolean (b : Bool)
  | nil
deriving DecidableEq

/-- The big-endian byte string of a 32-bit value: the bytes of
`key_num` in memory after `key_num = htonl (key_num)` in
`lua_map_get_key` (lua_map.c:424-425), which on either host endianness
is the network-order (big-endian) representation of the host value. -/
def toBE32 (x : Nat) : List Nat :=
  [x / 16777216 % 256, x / 65536 % 256, x / 256 % 256, x % 256]

/-- The lua argument to `map:get_key` on a radix map: a number, an
`rspamd{ip}` userdata (whose inner address may be NULL), or anything
else. -/
inductive RadixKeyInput
  | num (k : Nat)
  | ip (addr : Option (List Nat))
  | other
deriving DecidableEq

/-- The radix branch of `lua_map_get_key` (lua_map.c:420-453).  The
trie is the external collaborator `find` (`radix_find_compressed` /
`radix_find_compressed_addr`; `none` = `RADIX_NO_VALUE`).  A numeric
key is truncated to 32 bits (`guint32 key_num`), converted to network
byte order, and looked up only when non-zero (`htonl` is a bijection
fixing zero, so the post-conversion test `key_num != 0` is the test on
the truncated host value); a userdata address is looked up directly;
otherwise the result stays `FALSE`. -/
def lua_map_get_key_radix (find : List Nat → Option Nat)
    (input : RadixKeyInput) : Bool :=
  let key_num : Nat :=
    match input with
    | RadixKeyInput.num k => k % 4294967296
    | _ => 0
  let addr : Option (List Nat) :=
    match input with
    | RadixKeyInput.ip a => a
    | _ => none
  match addr with
  | some a => (find a).isSome
  | none =>
    if key_num ≠ 0 then (find (toBE32 key_num)).isSome else false

/-- The key-value branch of `lua_map_get_key` (lua_map.c:461-473,
falling through to line 479).  The hash table is the collaborator
`tbl`; `key` is `lua_tostring` of the argument (`none` = NULL).  When a
value is found it is pushed as a string; on a NULL key or a missing key
control falls through to `lua_pushboolean (L, ret)` with `ret = FALSE`. -/
def lua_map_get_key_kv (tbl : String → Option String)
    (key : Option String) : LuaValue :=
  match key with
  | none => LuaValue.boolean false
  | some k =>
    match tbl k with
    | some v => LuaValue.str v
    | none => LuaValue.boolean false

/-- The protocol tag of `struct rspamd_map` (`MAP_PROTO_FILE` /
`MAP_PROTO_HTTP`). -/
inductive MapProto
  | file
  | http
deriving DecidableEq

/-- The fields of the fetchable `struct rspamd_map` read by this
module: the signed flag, the protocol, the URI, and the optional
trusted public key (an opaque handle, modelled as a number). -/
structure FetchMap where
  is_signed : Bool
  protocol : MapProto
  uri : String
  trusted_pubkey : Option Nat
deriving DecidableEq

/-- Model of `struct rspamd_lua_map` as used by the accessors: the
`RSPAMD_LUA_MAP_FLAG_EMBEDDED` flag and the `map` pointer to the fetch
metadata (`none` = NULL, as in embedded handles). -/
structure RspamdLuaMap where
  embedded : Bool
  map : Option FetchMap
deriving DecidableEq

/-- Result of `map:set_sign_key` (lua_map.c:565-600): a lua error for
a missing string argument, the "cannot set key for embedded maps"
error, the "invalid pubkey string" error, or success with the updated
handle. -/
inductive SetKeyResult
  | errInvalidArgs
  | errEmbedded
  | errInvalidKey
  | ok (m : RspamdLuaMap)
deriving DecidableEq

/-- Model of `lua_map_set_sign_key` (lua_map.c:565-600).  The base32
decoder `rspamd_pubkey_from_base32` is the collaborator `parse`.  An
embedded flag or a NULL `map` pointer raises the embedded-map error; a
failed parse raises the invalid-key error; otherwise the old trusted
key (if any) is unreferenced and the new one installed. -/
def lua_map_set_sign_key (parse : String → Option Nat)
    (m : RspamdLuaMap) (pk_str : Option String) : SetKeyResult :=
  match pk_str with
  | none => SetKeyResult.errInvalidArgs
  | some s =>
    if m.embedded then SetKeyResult.errEmbedded
    else
      match m.map with
      | none => SetKeyResult.errEmbedded
      | some fm =>
        match parse s with
        | none => SetKeyResult.errInvalidKey
        | some pk =>
          SetKeyResult.ok { m with map := some { fm with trusted_pubkey := some pk } }

/-- Model of `lua_map_is_signed` (lua_map.c:483-502): `ret` starts
FALSE and becomes TRUE only when `map->map` is non-NULL and its
`is_signed` field is set. -/
def lua_map_is_signed (m : RspamdLuaMap) : Bool :=
  match m.map with
  | some fm => fm.is_signed
  | none => false

/-- Model of `lua_map_get_proto` (lua_map.c:504-531): the embedded
flag or a NULL `map` pointer yields "embedded", otherwise the protocol
tag is rendered. -/
def lua_map_get_proto (m : RspamdLuaMap) : String :=
  if m.embedded then "embedded"
  else
    match m.map with
    | none => "embedded"
    | some fm =>
      match fm.protocol with
      | MapProto.file => "file"
      | MapProto.http => "http"

/-- Model of `lua_map_get_sign_key` (lua_map.c:533-563): an embedded
handle pushes nil at once; otherwise the trusted key, when both the
`map` pointer and the key are present, is printed in base32 by the
collaborator `pkPrint` (`rspamd_pubkey_print`); in every other case nil
is pushed. -/
def lua_map_get_sign_key (pkPrint : Nat → String)
    (m : RspamdLuaMap) : Option String :=
  if m.embedded then none
  else
    match m.map with
    | none => none
    | some fm =>
      match fm.trusted_pubkey with
      | some pk => some (pkPrint pk)
      | none => none

/-- Model of `lua_map_get_uri` (lua_map.c:622-642): the embedded flag
or a NULL `map` pointer yields "embedded", otherwise the stored URI. -/
def lua_map_get_uri (m : RspamdLuaMap) : String :=
  if m.embedded then "embedded"
  else
    match m.map with
    | none => "embedded"
    | some fm => fm.uri

/- ============================ Theorems ============================ -/

/-- A concrete matching RSA key pair: modulus 15, both exponents 3
(valid since m ^ 9 = m mod 15 for every residue). -/
def K15 : RSAKey :=
  { n := 15, e := 3, d := 3,
    one_lt_n := by decide,
    sign_then_verify := by decide,
    verify_then_sign := by decide }

/-- A concrete stand-in for the digest-and-encode collaborator. -/
def demoDigest : List Nat → Nat := fun l => l.length + 1

/-- C1: for a matching key pair, verifying with the public key the
signature produced by signing a buffer with the private key returns
true; verification returns false on any buffer whose digest differs
(the digest collaborator separating the two buffers, as a bit mutation
does for a collision-resistant digest), and false for any distinct
signature below the modulus. -/
theorem rsa_sign_verify_roundtrip_and_tamper
    (k : RSAKey) (dE : List Nat → Nat) (data data2 : List Nat) (s s2 : Nat)
    (hlt : dE data < k.n)
    (hsign : lua_rsa_sign_memory k dE data = some s)
    (hd2 : dE data2 ≠ dE data)
    (hs2 : s2 < k.n) (hne : s2 ≠ s) :
    lua_rsa_verify_memory k dE s data = true ∧
    lua_rsa_verify_memory k dE s data2 = false ∧
    lua_rsa_verify_memory k dE s2 data = false := by
  have hs : s = dE data ^ k.d % k.n := by
    unfold lua_rsa_sign_memory at hsign
    rw [if_pos hlt] at hsign
    exact (Option.some.inj hsign).symm
  have hkey : s ^ k.e % k.n = dE data := by
    rw [hs, ← Nat.pow_mod]
    exact k.sign_then_verify (dE data) hlt
  refine ⟨?_, ?_, ?_⟩
  · simp [lua_rsa_verify_memory, hkey]
  · simp only [lua_rsa_verify_memory, hkey, decide_eq_false_iff_not]
    exact fun h => hd2 h.symm
  · have hno : ¬ (s2 ^ k.e % k.n = dE data) := by
      intro h
      apply hne
      have h1 : (s2 ^ k.e) ^ k.d % k.n = s2 := k.verify_then_sign s2 hs2
      have h2 : (s2 ^ k.e % k.n) ^ k.d % k.n = s2 := by
        rw [← Nat.pow_mod]; exact h1
      rw [h] at h2
      rw [hs]
      exact h2.symm
    simp only [lua_rsa_verify_memory, decide_eq_false_iff_not]
    exact hno

/-- Witness for C1 on the concrete key pair: signing `[5]` gives the
signature 8, which verifies; the buffer `[]` and the signature 7 are
both rejected. -/
theorem rsa_sign_verify_roundtrip_and_tamper_witness :
    lua_rsa_verify_memory K15 demoDigest 8 [5] = true ∧
    lua_rsa_verify_memory K15 demoDigest 8 [] = false ∧
    lua_rsa_verify_memory K15 demoDigest 7 [5] = false :=
  rsa_sign_verify_roundtrip_and_tamper K15 demoDigest [5] [] 8 7
    (by decide) (by decide) (by decide) (by decide) (by decide)

/-- C9: the file-based verify yields nil on a failed open or a failed
fstat/mmap; on a readable file it returns the boolean of the in-memory
check; and a `some false` result can only arise from a successfully
read file whose cryptographic check failed. -/
theorem verify_file_io_error_distinct
    (k : RSAKey) (dE : List Nat → Nat) (sig : Nat) (fa : FileAccess) :
    (lua_rsa_verify_file k dE sig FileAccess.openFail = none) ∧
    (lua_rsa_verify_file k dE sig FileAccess.mmapFail = none) ∧
    (∀ data, lua_rsa_verify_file k dE sig (FileAccess.ok data)
        = some (lua_rsa_verify_memory k dE sig data)) ∧
    (lua_rsa_verify_file k dE sig fa = some false →
       (fa ≠ FileAccess.openFail ∧ fa ≠ FileAccess.mmapFail) ∧
       ∀ data, fa = FileAccess.ok data →
         lua_rsa_verify_memory k dE sig data = false) := by
  refine ⟨rfl, rfl, fun data => rfl, ?_⟩
  intro hfalse
  cases fa with
  | openFail => exact absurd hfalse (by simp [lua_rsa_verify_file])
  | mmapFail => exact absurd hfalse (by simp [lua_rsa_verify_file])
  | ok d =>
    refine ⟨⟨fun hc => FileAccess.noConfusion hc, fun hc => FileAccess.noConfusion hc⟩, ?_⟩
    intro data hdata
    have hd : d = data := by
      cases hdata
      rfl
    subst hd
    simpa [lua_rsa_verify_file] using hfalse

/-- Witness for C9: an open failure gives nil, while an ok read of
`[5]` against the non-matching signature 7 gives the boolean false. -/
theorem verify_file_io_error_distinct_witness :
    lua_rsa_verify_file K15 demoDigest 7 FileAccess.openFail = none ∧
    lua_rsa_verify_memory K15 demoDigest 7 [5] = false :=
  ⟨(verify_file_io_error_distinct K15 demoDigest 7 FileAccess.openFail).1,
   ((verify_file_io_error_distinct K15 demoDigest 7 (FileAccess.ok [5])).2.2.2
       (by decide)).2 [5] rfl⟩

/-- Interposed EINTR failures do not change the outcome of the write
loop. -/
theorem writeLoop_replicate_eintr (sg : List Nat) (k : Nat)
    (t : List WriteRes) :
    writeLoop sg (List.replicate k (WriteRes.fail EINTR) ++ t)
      = writeLoop sg t := by
  induction k with
  | zero => rfl
  | succ n ih => simp [List.replicate_succ, writeLoop, ih]

/-- C4: a non-forced save on an existing path fails at open (O_EXCL)
returning false with the file system untouched; a forced save truncates
and overwrites, returning true with the signature stored, whatever was
there before. -/
theorem signature_save_excl_and_forced
    (sig : List Nat) (filename : String) (writes : List WriteRes)
    (fs : String → Option (List Nat)) :
    ((fs filename).isSome = true →
       lua_rsa_signature_save sig filename false writes fs = (false, fs)) ∧
    (∀ k rest,
       writes = List.replicate k (WriteRes.fail EINTR) ++ WriteRes.ok :: rest →
       lua_rsa_signature_save sig filename true writes fs
         = (true, fsUpdate fs filename sig)) := by
  constructor
  · intro h
    simp [lua_rsa_signature_save, h]
  · intro k rest hw
    simp [lua_rsa_signature_save, hw, writeLoop_replicate_eintr, writeLoop]

/-- A file system holding one signature file. -/
def demoFS : String → Option (List Nat) :=
  fun q => if q = "sig.bin" then some [9] else none

/-- Witness for C4: saving over the existing "sig.bin" fails without
force and leaves the file system unchanged; with force it succeeds and
the path now holds the new bytes. -/
theorem signature_save_excl_and_forced_witness :
    lua_rsa_signature_save [2, 3] "sig.bin" false [WriteRes.ok] demoFS
      = (false, demoFS) ∧
    lua_rsa_signature_save [2, 3] "sig.bin" true [WriteRes.ok] demoFS
      = (true, fsUpdate demoFS "sig.bin" [2, 3]) :=
  ⟨(signature_save_excl_and_forced [2, 3] "sig.bin" [WriteRes.ok] demoFS).1
     (by decide),
   (signature_save_excl_and_forced [2, 3] "sig.bin" [WriteRes.ok] demoFS).2
     0 [] rfl⟩

/-- C5: once open succeeds, write attempts failing with EINTR are
retried transparently; when an attempt then writes the buffer the save
returns true with the full signature stored, while an attempt failing
with any other errno aborts: the save returns false (file left as
created, empty). -/
theorem signature_save_write_retry
    (sig : List Nat) (filename : String) (forced : Bool)
    (writes : List WriteRes) (fs : String → Option (List Nat))
    (k : Nat) (rest : List WriteRes)
    (hopen : (!forced && (fs filename).isSome) = false) :
    (writes = List.replicate k (WriteRes.fail EINTR) ++ WriteRes.ok :: rest →
       lua_rsa_signature_save sig filename forced writes fs
         = (true, fsUpdate fs filename sig)) ∧
    (∀ e, e ≠ EINTR →
       writes = List.replicate k (WriteRes.fail EINTR) ++ WriteRes.fail e :: rest →
       lua_rsa_signature_save sig filename forced writes fs
         = (false, fsUpdate fs filename [])) := by
  constructor
  · intro hw
    simp [lua_rsa_signature_save, hopen, hw, writeLoop_replicate_eintr, writeLoop]
  · intro e he hw
    simp [lua_rsa_signature_save, hopen, hw, writeLoop_replicate_eintr,
      writeLoop, he]

/-- Witness for C5: two EINTR failures followed by a successful write
store the full signature; an EINTR failure followed by errno 7 aborts
with false. -/
theorem signature_save_write_retry_witness :
    lua_rsa_signature_save [2, 3] "s2.bin" true
        [WriteRes.fail 4, WriteRes.fail 4, WriteRes.ok] (fun _ => none)
      = (true, fsUpdate (fun _ => none) "s2.bin" [2, 3]) ∧
    lua_rsa_signature_save [2, 3] "s2.bin" true
        [WriteRes.fail 4, WriteRes.fail 7] (fun _ => none)
      = (false, fsUpdate (fun _ => none) "s2.bin" []) :=
  ⟨(signature_save_write_retry [2, 3] "s2.bin" true _ (fun _ => none) 2 []
      rfl).1 rfl,
   (signature_save_write_retry [2, 3] "s2.bin" true _ (fun _ => none) 1 []
      rfl).2 7 (by decide) rfl⟩

/-- Folding the reads over further chunks appends their concatenation
to an already-allocated accumulator buffer. -/
theorem readAll_appendAll (chunks : List (List Nat)) (prev : Option MapCbData)
    (r : Int) (mid : Nat) (d : List Nat) :
    readAll chunks
        { prev_data := prev,
          cur_data := some { ref := r, lua_map := mid, data := some d } }
      = some { prev_data := prev,
               cur_data := some { ref := r, lua_map := mid,
                                  data := some (d ++ chunks.flatten) } } := by
  induction chunks generalizing d with
  | nil => simp [readAll]
  | cons c rest ih =>
    simp [readAll, lua_map_read, appendChunk, ih]

/-- A finalize over a non-empty accumulator with a registered callback
invokes the handler with the accumulated buffer. -/
theorem lua_map_fin_invoked (prev : Option MapCbData) (r : Int) (mid : Nat)
    (d : List Nat) (hr : ¬ r = -1) (hd : ¬ d = []) :
    (lua_map_fin
        { prev_data := prev,
          cur_data := some { ref := r, lua_map := mid, data := some d } }).1
      = FinResult.invoked mid d := by
  have hlen : ¬ d.length = 0 := fun h => hd (List.length_eq_zero.mp h)
  simp [lua_map_fin, hr, hlen]

/-- C2: one full ingestion cycle — any sequence of chunk deliveries
followed by finalize, starting with a registered callback — hands the
handler exactly the concatenation of all delivered chunks in delivery
order, never a strict subset or reordering. -/
theorem map_fin_delivers_concatenation (p : MapCbData)
    (chunks : List (List Nat)) (href : ¬ p.ref = -1)
    (hne : ¬ chunks.flatten = []) :
    runCycle p chunks
      = some (FinResult.invoked p.lua_map chunks.flatten) := by
  cases chunks with
  | nil => exact absurd rfl hne
  | cons c rest =>
    have hread : readAll (c :: rest) { prev_data := some p, cur_data := none }
        = some { prev_data := some p,
                 cur_data := some { ref := p.ref, lua_map := p.lua_map,
                                    data := some (c ++ rest.flatten) } } := by
      simp [readAll, lua_map_read, appendChunk, readAll_appendAll]
    have hd2 : ¬ (c ++ rest.flatten) = [] := by
      rw [← List.flatten_cons]
      exact hne
    have hfin := lua_map_fin_invoked (some p) p.ref p.lua_map
      (c ++ rest.flatten) href hd2
    unfold runCycle
    rw [hread]
    rw [List.flatten_cons]
    exact congrArg some hfin

/-- Witness for C2: chunks `[1]` then `[2, 3]` result in one handler
invocation with buffer `[1, 2, 3]`. -/
theorem map_fin_delivers_concatenation_witness :
    runCycle { ref := 0, lua_map := 7, data := none } [[1], [2, 3]]
      = some (FinResult.invoked 7 [1, 2, 3]) :=
  map_fin_delivers_concatenation { ref := 0, lua_map := 7, data := none }
    [[1], [2, 3]] (by decide) (by decide)

/-- C3: a finalize with no current accumulator reports the no-data
diagnostic and changes nothing but releasing the previous accumulator;
a finalize whose accumulator buffer is NULL or empty never invokes the
handler and likewise only releases the previous accumulator. -/
theorem map_fin_empty_no_invoke (st : MapCbState) (c : MapCbData)
    (mid : Nat) (buf : List Nat) :
    (st.cur_data = none →
       lua_map_fin st = (FinResult.noData, { st with prev_data := none })) ∧
    (st.cur_data = some c → (c.data = none ∨ c.data = some []) →
       (lua_map_fin st).1 ≠ FinResult.invoked mid buf ∧
       (lua_map_fin st).2 = { st with prev_data := none }) := by
  constructor
  · intro h
    simp [lua_map_fin, h]
  · intro h hd
    have hfin : ((lua_map_fin st).1 = FinResult.noCallback ∨
        (lua_map_fin st).1 = FinResult.skipped) ∧
        (lua_map_fin st).2 = { st with prev_data := none } := by
      by_cases hr : c.ref = -1
      · simp [lua_map_fin, h, hr]
      · cases hd with
        | inl h0 => simp [lua_map_fin, h, hr, h0]
        | inr h0 => simp [lua_map_fin, h, hr, h0]
    obtain ⟨h1, h2⟩ := hfin
    refine ⟨?_, h2⟩
    cases h1 with
    | inl e => rw [e]; exact fun hc => FinResult.noConfusion hc
    | inr e => rw [e]; exact fun hc => FinResult.noConfusion hc

/-- Witness for C3: a finalize with no accumulator yields the no-data
diagnostic; a finalize over an empty buffer does not invoke the
handler. -/
theorem map_fin_empty_no_invoke_witness :
    lua_map_fin { prev_data := some { ref := 0, lua_map := 7, data := some [1] },
                  cur_data := none }
      = (FinResult.noData, { prev_data := none, cur_data := none }) ∧
    (lua_map_fin { prev_data := none,
                   cur_data := some { ref := 0, lua_map := 7, data := some [] } }).1
      ≠ FinResult.invoked 7 [1] :=
  ⟨(map_fin_empty_no_invoke
      { prev_data := some { ref := 0, lua_map := 7, data := some [1] },
        cur_data := none }
      { ref := 0, lua_map := 7, data := none } 7 [1]).1 rfl,
   ((map_fin_empty_no_invoke
      { prev_data := none,
        cur_data := some { ref := 0, lua_map := 7, data := some [] } }
      { ref := 0, lua_map := 7, data := some [] } 7 [1]).2 rfl
      (Or.inr rfl)).1⟩

/-- C6: on a radix map, a zero numeric key is treated as no key — the
lookup returns false for every possible trie content — while a non-zero
numeric key is truncated to 32 bits, converted to network byte order,
and matched against the trie. -/
theorem radix_numeric_key_netorder_zero (find : List Nat → Option Nat)
    (k : Nat) :
    (lua_map_get_key_radix find (RadixKeyInput.num 0) = false) ∧
    (k % 4294967296 = 0 →
       lua_map_get_key_radix find (RadixKeyInput.num k) = false) ∧
    (¬ k % 4294967296 = 0 →
       lua_map_get_key_radix find (RadixKeyInput.num k)
         = (find (toBE32 (k % 4294967296))).isSome) := by
  refine ⟨?_, ?_, ?_⟩
  · simp [lua_map_get_key_radix]
  · intro h
    simp [lua_map_get_key_radix, h]
  · intro h
    simp [lua_map_get_key_radix, h]

/-- A trie collaborator holding exactly the big-endian bytes of 256. -/
def demoFind : List Nat → Option Nat :=
  fun b => if b = [0, 0, 1, 0] then some 1 else none

/-- Witness for C6: key 0 is absent even though the trie is non-empty,
and key 256 is found through its network-order bytes. -/
theorem radix_numeric_key_netorder_zero_witness :
    lua_map_get_key_radix demoFind (RadixKeyInput.num 0) = false ∧
    lua_map_get_key_radix demoFind (RadixKeyInput.num 256) = true :=
  ⟨(radix_numeric_key_netorder_zero demoFind 0).1,
   by
     have h := (radix_numeric_key_netorder_zero demoFind 256).2.2 (by decide)
     rw [h]
     decide⟩

/-- A key-value table built from the input line "alpha beta". -/
def demoKvTbl : String → Option String :=
  fun k => if k = "alpha" then some "beta" else none

/-- C7 (divergence exhibit): on a key-value map a present key returns
its value string, but a missing key makes the C fall through to
`lua_pushboolean (L, ret)` with `ret = FALSE`, so the caller receives
the boolean false — not nil, which the module doc comment
(lua_map.c:33-38) promises for kv maps. -/
theorem kv_miss_returns_boolean_false :
    lua_map_get_key_kv demoKvTbl (some "alpha") = LuaValue.str "beta" ∧
    lua_map_get_key_kv demoKvTbl (some "missing") = LuaValue.boolean false ∧
    lua_map_get_key_kv demoKvTbl (some "missing") ≠ LuaValue.nil := by
  refine ⟨by decide, by decide, by decide⟩

/-- C8: setting the trusted signing key fails with the embedded-map
error on an embedded handle (or one without fetch metadata), fails with
the invalid-key error when the base32 string does not decode to a
public key, and otherwise installs the new key in place of whatever key
was set before. -/
theorem set_sign_key_errors_and_replace (parse : String → Option Nat)
    (m : RspamdLuaMap) (s : String) (fm : FetchMap) (pk : Nat) :
    (m.embedded = true →
       lua_map_set_sign_key parse m (some s) = SetKeyResult.errEmbedded) ∧
    (m.embedded = false → m.map = none →
       lua_map_set_sign_key parse m (some s) = SetKeyResult.errEmbedded) ∧
    (m.embedded = false → m.map = some fm → parse s = none →
       lua_map_set_sign_key parse m (some s) = SetKeyResult.errInvalidKey) ∧
    (m.embedded = false → m.map = some fm → parse s = some pk →
       lua_map_set_sign_key parse m (some s)
         = SetKeyResult.ok
             { m with map := some { fm with trusted_pubkey := some pk } }) := by
  refine ⟨?_, ?_, ?_, ?_⟩ <;> intros <;> simp [lua_map_set_sign_key, *]

/-- A base32 decoder collaborator accepting exactly "GOOD". -/
def demoDecode : String → Option Nat :=
  fun s => if s = "GOOD" then some 42 else none

/-- A fetchable map with a previously trusted key 5. -/
def demoFetchMap : FetchMap :=
  { is_signed := true, protocol := MapProto.http,
    uri := "http://x/map", trusted_pubkey := some 5 }

/-- Witness for C8: the embedded handle errors, the bad string errors,
and the good string replaces the old key 5 with 42. -/
theorem set_sign_key_errors_and_replace_witness :
    lua_map_set_sign_key demoDecode { embedded := true, map := none }
        (some "GOOD") = SetKeyResult.errEmbedded ∧
    lua_map_set_sign_key demoDecode
        { embedded := false, map := some demoFetchMap } (some "BAD")
      = SetKeyResult.errInvalidKey ∧
    lua_map_set_sign_key demoDecode
        { embedded := false, map := some demoFetchMap } (some "GOOD")
      = SetKeyResult.ok
          { embedded := false,
            map := some { demoFetchMap with trusted_pubkey := some 42 } } :=
  ⟨(set_sign_key_errors_and_replace demoDecode
      { embedded := true, map := none } "GOOD" demoFetchMap 0).1 rfl,
   (set_sign_key_errors_and_replace demoDecode
      { embedded := false, map := some demoFetchMap } "BAD"
      demoFetchMap 0).2.2.1 rfl rfl (by decide),
   (set_sign_key_errors_and_replace demoDecode
      { embedded := false, map := some demoFetchMap } "GOOD"
      demoFetchMap 42).2.2.2 rfl rfl (by decide)⟩

/-- C10: on any handle whose fetch-map reference is absent — embedded
flag set or not — is_signed is false, get_sign_key is nil, and
get_proto and get_uri are both "embedded". -/
theorem absent_fetch_map_accessors (pkPrint : Nat → String)
    (m : RspamdLuaMap) (h : m.map = none) :
    lua_map_is_signed m = false ∧
    lua_map_get_sign_key pkPrint m = none ∧
    lua_map_get_proto m = "embedded" ∧
    lua_map_get_uri m = "embedded" := by
  obtain ⟨emb, mm⟩ := m
  have h2 : mm = none := h
  subst h2
  cases emb <;>
    simp [lua_map_is_signed, lua_map_get_sign_key, lua_map_get_proto,
      lua_map_get_uri]

/-- Witness for C10: a handle with no fetch metadata and the embedded
flag not set still reports unsigned, no key, and "embedded". -/
theorem absent_fetch_map_accessors_witness :
    lua_map_is_signed { embedded := false, map := none } = false ∧
    lua_map_get_sign_key (fun _ => "") { embedded := false, map := none }
      = none ∧
    lua_map_get_proto { embedded := false, map := none } = "embedded" ∧
    lua_map_get_uri { embedded := false, map := none } = "embedded" :=
  absent_fetch_map_accessors (fun _ => "")
    { embedded := false, map := none } rfl
